import Mathlib

/-
Shallow embedding of `lib/ansible/modules/cloud/cloudstack/cs_ip_address.py`.

The module manages public IP address associations on a CloudStack cloud.
Remote API behaviour (the `cs` client library and the CloudStack platform)
is external to the repository and is modelled as an oracle `Env`; every
remote call the module issues is recorded in an explicit call trace so that
properties such as "no mutating call is issued in check mode" are statable.

Pieces of the repository that live in `lib/ansible/module_utils` (the
`AnsibleModule` argument validation, `AnsibleCloudStack._get_by_key`,
`poll_job`, the `result` dictionary initialisation) are not under `src/`;
they are modelled from the spec and marked as such in their doc comments.
-/

namespace CsIpAddress

/-- A public IP address record as returned by the platform: a UUID `id`, the
`isstaticnat` flag the module inspects, and the remaining attributes as a
key-value list (e.g. `ipaddress`). -/
structure Record where
  id : String
  isstaticnat : Bool
  fields : List (String × String)
deriving Repr, DecidableEq

/-- The immediate response of an asynchronous API call: it carries the job
identifier that `poll_job` would poll. -/
structure Resp where
  jobid : String
deriving Repr, DecidableEq

/-- One remote API call issued by the module, as recorded in the trace.
`listPublicIpAddresses` carries the address filter that was passed
(`self.module.params.get('ip_address')`, possibly absent). -/
inductive RemoteCall where
  | listPublicIpAddresses (filter : Option String)
  | associateIpAddress
  | disassociateIpAddress (id : String)
  | pollJob (jobid : String)
deriving Repr, DecidableEq

/-- Whether a remote call mutates platform state.  Listing and polling are
read-only; associate and disassociate mutate. -/
def RemoteCall.isMutating : RemoteCall → Bool
  | .associateIpAddress => true
  | .disassociateIpAddress _ => true
  | _ => false

/-- Oracle for the external platform: the result of listing public IP
addresses under a given address filter (the first record of the response,
or `none` when the response is empty/falsy), the immediate responses of the
two mutating calls, and the record a completed job yields when polled. -/
structure Env where
  listPublicIpAddresses : Option String → Option Record
  associateResp : Resp
  disassociateResp : String → Resp
  pollJob : Resp → Record

/-- The module invocation parameters relevant to control flow, mirroring the
`argument_spec` of `main` (entity names such as account/domain/project/vpc
only flow into remote-call arguments and are left abstract).  `check_mode`
is `self.module.check_mode`. -/
structure Params where
  ip_address : Option String
  state : String
  poll_async : Bool
  check_mode : Bool
deriving Repr, DecidableEq

/-- Mutable per-invocation state of the `AnsibleCloudStackIPAddress`
instance: the cached IP record `self.ip_address` and the
`self.result['changed']` flag. -/
structure ModState where
  ip_address : Option Record
  changed : Bool
deriving Repr, DecidableEq

/-- Modelled from the spec: the shared base class initialises the cache to
empty and the reported `changed` boolean to false at the start of each
invocation ("each invocation is independent and stateless beyond its own
in-memory cache of one resolved IP record"; output includes "a `changed`
boolean"). -/
def initState : ModState := { ip_address := none, changed := false }

/-- The value `_get_by_key` produces: the whole record, one of its string
fields, or a falsy/absent value. -/
inductive Value where
  | vnone
  | vrec (r : Record)
  | vstr (s : String)
deriving Repr, DecidableEq

/-- Modelled from the spec: `AnsibleCloudStack._get_by_key` from the shared
library (`lib/ansible/module_utils/cloudstack.py`, not under `src/`):
"Result: the requested field of the matched record, or none if no match."
With no key it yields the whole record. -/
def getByKey (key : Option String) (r : Option Record) : Value :=
  match r with
  | none => Value.vnone
  | some r0 =>
    match key with
    | none => Value.vrec r0
    | some k =>
      match r0.fields.lookup k with
      | some v => Value.vstr v
      | none => Value.vnone

/-- Result of one operation of the module: its return value, the instance
state afterwards, and the remote calls it issued, in order. -/
structure StepResult (α : Type) where
  value : α
  state : ModState
  calls : List RemoteCall
deriving Repr, DecidableEq

/-- `get_ip_address` (lines 128-142): if a record is already cached, project
it through `_get_by_key` without any remote call; otherwise list public IP
addresses filtered by the `ip_address` parameter (plus resolved entity ids),
cache the first record of a non-empty response, and project whatever (if
anything) is now cached. -/
def get_ip_address (env : Env) (p : Params) (key : Option String)
    (st : ModState) : StepResult Value :=
  match st.ip_address with
  | some r => { value := getByKey key (some r), state := st, calls := [] }
  | none =>
    let found := env.listPublicIpAddresses p.ip_address
    let st' : ModState :=
      match found with
      | some r => { st with ip_address := some r }
      | none => st
    { value := getByKey key st'.ip_address, state := st',
      calls := [RemoteCall.listPublicIpAddresses p.ip_address] }

/-- `associate_ip_address` (lines 144-161): set `changed` unconditionally;
unless in check mode, issue the associate call, and when `poll_async` is
set, poll the job and return the resulting record.  In every other case the
local `ip_address` variable stays `None` and is returned as such (the
immediate response `res` is never returned). -/
def associate_ip_address (env : Env) (p : Params) (st : ModState) :
    StepResult (Option Record) :=
  let st1 := { st with changed := true }
  if p.check_mode then
    { value := none, state := st1, calls := [] }
  else
    let res := env.associateResp
    if p.poll_async then
      { value := some (env.pollJob res), state := st1,
        calls := [RemoteCall.associateIpAddress, RemoteCall.pollJob res.jobid] }
    else
      { value := none, state := st1, calls := [RemoteCall.associateIpAddress] }

/-- Outcome of an operation that may terminate the module via `fail_json`
(which raises and aborts the rest of the invocation). -/
inductive Outcome (α : Type) where
  | ok (v : α)
  | fatal (msg : String)
deriving Repr, DecidableEq

/-- `disassociate_ip_address` (lines 163-177): look the address up with no
key (so the lookup yields the whole record or a falsy value); on a falsy
result return `None`; on a static-NAT record fail fatally before touching
`changed`; otherwise set `changed`, and unless in check mode issue the
disassociate call and, when `poll_async` is set, poll the job (discarding
the poll result); always return the pre-fetched record. -/
def disassociate_ip_address (env : Env) (p : Params) (st : ModState) :
    StepResult (Outcome (Option Record)) :=
  let l := get_ip_address env p none st
  match l.value with
  | Value.vrec r =>
    if r.isstaticnat then
      { value := Outcome.fatal "IP address is allocated via static nat",
        state := l.state, calls := l.calls }
    else
      let st2 := { l.state with changed := true }
      if p.check_mode then
        { value := Outcome.ok (some r), state := st2, calls := l.calls }
      else
        let res := env.disassociateResp r.id
        let c2 := l.calls ++ [RemoteCall.disassociateIpAddress r.id]
        if p.poll_async then
          { value := Outcome.ok (some r), state := st2,
            calls := c2 ++ [RemoteCall.pollJob res.jobid] }
        else
          { value := Outcome.ok (some r), state := st2, calls := c2 }
  | _ =>
    { value := Outcome.ok none, state := l.state, calls := l.calls }

/-- Modelled from the spec: `AnsibleModule` parameter validation
(`lib/ansible/module_utils/basic.py`, not under `src/`), driven by the
argument spec declared in `main` (lines 194-201): `state` is restricted to
the choices `present`/`absent`, and `required_if` demands `ip_address`
whenever `state` is `absent`; violations are "rejected before dispatch". -/
def validParams (p : Params) : Bool :=
  (p.state = "present" || p.state = "absent")
    && !(p.state = "absent" && p.ip_address.isNone)

/-- The observable result of a whole module invocation: the operation
outcome, the reported `changed` flag, and the trace of remote calls. -/
structure RunResult where
  outcome : Outcome (Option Record)
  changed : Bool
  calls : List RemoteCall
deriving Repr, DecidableEq

/-- `main` (lines 180-212): validate parameters (rejecting before any remote
call), then dispatch on `state`: `absent` runs disassociate, anything else
(i.e. `present`) runs associate; the reported `changed` flag is the final
`self.result['changed']`. -/
def runModule (env : Env) (p : Params) : RunResult :=
  if validParams p = false then
    { outcome := Outcome.fatal "missing required arguments", changed := false,
      calls := [] }
  else if p.state = "absent" then
    let d := disassociate_ip_address env p initState
    { outcome := d.value, changed := d.state.changed, calls := d.calls }
  else
    let a := associate_ip_address env p initState
    { outcome := Outcome.ok a.value, changed := a.state.changed,
      calls := a.calls }

/-! Concrete records, responses and environments used by the witnesses and
counterexamples below. -/

/-- A record flagged as static NAT. -/
def rStatic : Record :=
  { id := "id-static", isstaticnat := true,
    fields := [("ipaddress", "1.2.3.4")] }

/-- An ordinary (non static NAT) record. -/
def rPlain : Record :=
  { id := "id-plain", isstaticnat := false,
    fields := [("ipaddress", "5.6.7.8")] }

/-- An environment whose listing always finds the static-NAT record. -/
def envStatic : Env :=
  { listPublicIpAddresses := fun _ => some rStatic,
    associateResp := { jobid := "job-a" },
    disassociateResp := fun _ => { jobid := "job-d" },
    pollJob := fun _ => rPlain }

/-- An environment whose listing always finds the ordinary record. -/
def envPlain : Env :=
  { listPublicIpAddresses := fun _ => some rPlain,
    associateResp := { jobid := "job-a" },
    disassociateResp := fun _ => { jobid := "job-d" },
    pollJob := fun _ => rPlain }

/-- An environment whose listing never finds a record. -/
def envEmpty : Env :=
  { listPublicIpAddresses := fun _ => none,
    associateResp := { jobid := "job-a" },
    disassociateResp := fun _ => { jobid := "job-d" },
    pollJob := fun _ => rPlain }

/-! Theorems about the claims. -/

/-- C1.  For every invocation with `state=absent` whose IP address lookup
returns a record flagged as static NAT, the module fails fatally with the
exact message "IP address is allocated via static nat", the only remote call
issued is the (read-only) listing — in particular no disassociate call —
and the reported `changed` flag is still false. -/
theorem C1_static_nat_fatal (env : Env) (p : Params) (a : String) (r : Record)
    (hs : p.state = "absent") (hip : p.ip_address = some a)
    (hfind : env.listPublicIpAddresses p.ip_address = some r)
    (hnat : r.isstaticnat = true) :
    runModule env p =
      { outcome := Outcome.fatal "IP address is allocated via static nat",
        changed := false,
        calls := [RemoteCall.listPublicIpAddresses (some a)] } := by
  rw [hip] at hfind
  simp [runModule, validParams, hs, hip, disassociate_ip_address,
    get_ip_address, initState, hfind, getByKey, hnat]

/-- C1 witness at a concrete input. -/
theorem C1_static_nat_fatal_witness :
    runModule envStatic
      { ip_address := some "1.2.3.4", state := "absent",
        poll_async := true, check_mode := false } =
      { outcome := Outcome.fatal "IP address is allocated via static nat",
        changed := false,
        calls := [RemoteCall.listPublicIpAddresses (some "1.2.3.4")] } :=
  C1_static_nat_fatal envStatic _ "1.2.3.4" rStatic rfl rfl rfl rfl

/-- C2.  For every invocation with `state=absent` where the lookup finds no
record, the module succeeds with value none, reports `changed = false`, and
the only remote call is the read-only listing — no mutating call occurs. -/
theorem C2_absent_not_found_noop (env : Env) (p : Params) (a : String)
    (hs : p.state = "absent") (hip : p.ip_address = some a)
    (hfind : env.listPublicIpAddresses p.ip_address = none) :
    runModule env p =
      { outcome := Outcome.ok none, changed := false,
        calls := [RemoteCall.listPublicIpAddresses (some a)] } ∧
    ∀ c ∈ (runModule env p).calls, c.isMutating = false := by
  rw [hip] at hfind
  have h : runModule env p =
      { outcome := Outcome.ok none, changed := false,
        calls := [RemoteCall.listPublicIpAddresses (some a)] } := by
    simp [runModule, validParams, hs, hip, disassociate_ip_address,
      get_ip_address, initState, hfind, getByKey]
  refine ⟨h, ?_⟩
  intro c hc
  rw [h] at hc
  simp at hc
  simp [hc, RemoteCall.isMutating]

/-- C2 witness at a concrete input. -/
theorem C2_absent_not_found_noop_witness :
    runModule envEmpty
      { ip_address := some "9.9.9.9", state := "absent",
        poll_async := true, check_mode := false } =
      { outcome := Outcome.ok none, changed := false,
        calls := [RemoteCall.listPublicIpAddresses (some "9.9.9.9")] } :=
  (C2_absent_not_found_noop envEmpty _ "9.9.9.9" rfl rfl rfl).1

/-- C3.  For every invocation with `state=present` outside check mode the
reported `changed` flag is true; since each invocation starts from a fresh
state, two successive invocations with identical parameters (against
possibly different platform states) both report `changed = true`. -/
theorem C3_present_always_changed (env env' : Env) (p : Params)
    (hs : p.state = "present") (hc : p.check_mode = false) :
    (runModule env p).changed = true ∧ (runModule env' p).changed = true := by
  have key : ∀ e : Env, (runModule e p).changed = true := by
    intro e
    cases hpoll : p.poll_async <;>
      simp [runModule, validParams, hs, hc, hpoll, associate_ip_address,
        initState]
  exact ⟨key env, key env'⟩

/-- C3 witness at a concrete input. -/
theorem C3_present_always_changed_witness :
    (runModule envPlain
      { ip_address := none, state := "present",
        poll_async := true, check_mode := false }).changed = true ∧
    (runModule envEmpty
      { ip_address := none, state := "present",
        poll_async := true, check_mode := false }).changed = true :=
  C3_present_always_changed envPlain envEmpty _ rfl rfl

/-- C4.  In check mode no mutating remote call is ever issued, for either
state: every call in the trace of the invocation is read-only. -/
theorem C4_check_mode_no_mutation (env : Env) (p : Params)
    (hc : p.check_mode = true) :
    ∀ c ∈ (runModule env p).calls, c.isMutating = false := by
  intro c hmem
  unfold runModule at hmem
  by_cases hv : validParams p = false
  · simp [hv] at hmem
  · by_cases hs : p.state = "absent"
    · simp only [hv, hs, if_false, if_true, if_pos] at hmem
      unfold disassociate_ip_address get_ip_address initState at hmem
      rcases hfind : env.listPublicIpAddresses p.ip_address with _ | r
      · simp [hfind, getByKey] at hmem
        simp [hmem, RemoteCall.isMutating]
      · rcases hnat : r.isstaticnat with _ | _
        · simp [hfind, getByKey, hnat, hc] at hmem
          simp [hmem, RemoteCall.isMutating]
        · simp [hfind, getByKey, hnat] at hmem
          simp [hmem, RemoteCall.isMutating]
    · simp only [hv, hs, if_false, if_true, if_pos] at hmem
      unfold associate_ip_address at hmem
      simp [hc] at hmem

/-- C4 witness at a concrete input: the concrete check-mode trace consists
of the single listing call, which the theorem shows to be non-mutating. -/
theorem C4_check_mode_no_mutation_witness :
    RemoteCall.isMutating
      (RemoteCall.listPublicIpAddresses (some "5.6.7.8")) = false :=
  C4_check_mode_no_mutation envPlain
    { ip_address := some "5.6.7.8", state := "absent",
      poll_async := true, check_mode := true } rfl
    (RemoteCall.listPublicIpAddresses (some "5.6.7.8")) (by decide)

/-- C5 counterexample: at a concrete environment whose listing yields a
record even under an empty address filter, an invocation with no
`ip_address` parameter and an empty cache makes `get_ip_address` return the
first listed record — not none — after issuing the listing call with an
empty filter.  (Lines 128-142 contain no early return for a missing
parameter.) -/
theorem C5_lookup_no_param_counterexample :
    (get_ip_address envPlain
      { ip_address := none, state := "present",
        poll_async := true, check_mode := false }
      none initState).value = Value.vrec rPlain ∧
    Value.vrec rPlain ≠ Value.vnone ∧
    (get_ip_address envPlain
      { ip_address := none, state := "present",
        poll_async := true, check_mode := false }
      none initState).calls =
      [RemoteCall.listPublicIpAddresses none] :=
  ⟨rfl, by decide, rfl⟩

/-- C5 amended: when no `ip_address` parameter is supplied and no record is
cached, `get_ip_address` still issues a `listPublicIpAddresses` call passing
an empty address filter; it returns none exactly when that call yields no
record, and otherwise caches and returns the first record the platform
listed. -/
theorem C5_lookup_no_param_amended (env : Env) (p : Params)
    (key : Option String) (st : ModState)
    (hip : p.ip_address = none) (hcache : st.ip_address = none) :
    get_ip_address env p key st =
      match env.listPublicIpAddresses none with
      | some r =>
        { value := getByKey key (some r),
          state := { st with ip_address := some r },
          calls := [RemoteCall.listPublicIpAddresses none] }
      | none =>
        { value := Value.vnone, state := st,
          calls := [RemoteCall.listPublicIpAddresses none] } := by
  rcases hfind : env.listPublicIpAddresses none with _ | r <;>
    simp [get_ip_address, hcache, hip, hfind, getByKey]

/-- C5 amended witness at a concrete input. -/
theorem C5_lookup_no_param_amended_witness :
    get_ip_address envEmpty
      { ip_address := none, state := "present",
        poll_async := true, check_mode := false }
      none initState =
      match envEmpty.listPublicIpAddresses none with
      | some r =>
        { value := getByKey none (some r),
          state := { initState with ip_address := some r },
          calls := [RemoteCall.listPublicIpAddresses none] }
      | none =>
        { value := Value.vnone, state := initState,
          calls := [RemoteCall.listPublicIpAddresses none] } :=
  C5_lookup_no_param_amended envEmpty _ none initState rfl rfl

/-- C6 counterexample: at a concrete environment, outside check mode and
with `poll_async` disabled, `associate_ip_address` issues the associate
call but returns none: the immediate response (`res`, line 156) is
discarded, never returned (the local `ip_address` stays `None`, line
154). -/
theorem C6_associate_no_poll_counterexample :
    (associate_ip_address envPlain
      { ip_address := none, state := "present",
        poll_async := false, check_mode := false }
      initState).value = none ∧
    (associate_ip_address envPlain
      { ip_address := none, state := "present",
        poll_async := false, check_mode := false }
      initState).calls = [RemoteCall.associateIpAddress] :=
  ⟨rfl, rfl⟩

/-- C6 amended: outside check mode, `associate_ip_address` issues the
associate call; with `poll_async` enabled it polls the resulting job to
completion and returns the record the job yields; with `poll_async`
disabled it returns none — the immediate response is discarded, not
returned. -/
theorem C6_associate_poll_amended (env : Env) (p : Params) (st : ModState)
    (hc : p.check_mode = false) :
    associate_ip_address env p st =
      if p.poll_async then
        { value := some (env.pollJob env.associateResp),
          state := { st with changed := true },
          calls := [RemoteCall.associateIpAddress,
                    RemoteCall.pollJob env.associateResp.jobid] }
      else
        { value := none, state := { st with changed := true },
          calls := [RemoteCall.associateIpAddress] } := by
  simp [associate_ip_address, hc]

/-- C6 amended witness at a concrete input. -/
theorem C6_associate_poll_amended_witness :
    associate_ip_address envPlain
      { ip_address := none, state := "present",
        poll_async := true, check_mode := false }
      initState =
      if true then
        { value := some (envPlain.pollJob envPlain.associateResp),
          state := { initState with changed := true },
          calls := [RemoteCall.associateIpAddress,
                    RemoteCall.pollJob envPlain.associateResp.jobid] }
      else
        { value := none, state := { initState with changed := true },
          calls := [RemoteCall.associateIpAddress] } :=
  C6_associate_poll_amended envPlain
    { ip_address := none, state := "present",
      poll_async := true, check_mode := false }
    initState rfl

/-- C7.  For every invocation with `state=absent` that finds a non
static-NAT record: `changed` is reported true, the pre-fetched record is
returned in every branch, the disassociate call is issued exactly when not
in check mode, and the job poll happens exactly when a disassociate call
was issued and `poll_async` is enabled. -/
theorem C7_absent_found_disassociates (env : Env) (p : Params) (a : String)
    (r : Record)
    (hs : p.state = "absent") (hip : p.ip_address = some a)
    (hfind : env.listPublicIpAddresses p.ip_address = some r)
    (hnat : r.isstaticnat = false) :
    runModule env p =
      { outcome := Outcome.ok (some r), changed := true,
        calls := RemoteCall.listPublicIpAddresses (some a) ::
          (if p.check_mode then []
           else
             RemoteCall.disassociateIpAddress r.id ::
               (if p.poll_async then
                  [RemoteCall.pollJob (env.disassociateResp r.id).jobid]
                else [])) } := by
  rw [hip] at hfind
  cases hcm : p.check_mode <;> cases hpoll : p.poll_async <;>
    simp [runModule, validParams, hs, hip, disassociate_ip_address,
      get_ip_address, initState, hfind, getByKey, hnat, hcm, hpoll]

/-- C7 witness at a concrete input. -/
theorem C7_absent_found_disassociates_witness :
    runModule envPlain
      { ip_address := some "5.6.7.8", state := "absent",
        poll_async := true, check_mode := false } =
      { outcome := Outcome.ok (some rPlain), changed := true,
        calls := RemoteCall.listPublicIpAddresses (some "5.6.7.8") ::
          (if false then []
           else
             RemoteCall.disassociateIpAddress rPlain.id ::
               (if true then
                  [RemoteCall.pollJob
                    (envPlain.disassociateResp rPlain.id).jobid]
                else [])) } :=
  C7_absent_found_disassociates envPlain
    { ip_address := some "5.6.7.8", state := "absent",
      poll_async := true, check_mode := false }
    "5.6.7.8" rPlain rfl rfl rfl rfl

/-- C8.  For every invocation with `state=absent` and no `ip_address`
parameter, parameter validation rejects the invocation before dispatch:
the module fails and the call trace is empty — no remote call of any kind
is issued. -/
theorem C8_absent_requires_ip (env : Env) (p : Params)
    (hs : p.state = "absent") (hip : p.ip_address = none) :
    runModule env p =
      { outcome := Outcome.fatal "missing required arguments",
        changed := false, calls := [] } := by
  simp [runModule, validParams, hs, hip]

/-- C8 witness at a concrete input. -/
theorem C8_absent_requires_ip_witness :
    runModule envPlain
      { ip_address := none, state := "absent",
        poll_async := true, check_mode := false } =
      { outcome := Outcome.fatal "missing required arguments",
        changed := false, calls := [] } :=
  C8_absent_requires_ip envPlain _ rfl rfl

/-- C9.  Once a record is cached in the instance's `ip_address` field,
every further `get_ip_address` call projects that same cached record
through `_get_by_key`, leaves the state unchanged, and issues no remote
call at all (in particular no further `listPublicIpAddresses`). -/
theorem C9_cached_lookup_idempotent (env : Env) (p : Params)
    (key : Option String) (st : ModState) (r : Record)
    (hcache : st.ip_address = some r) :
    get_ip_address env p key st =
      { value := getByKey key (some r), state := st, calls := [] } := by
  simp [get_ip_address, hcache]

/-- C9 witness at a concrete input. -/
theorem C9_cached_lookup_idempotent_witness :
    get_ip_address envEmpty
      { ip_address := some "5.6.7.8", state := "absent",
        poll_async := true, check_mode := false }
      (some "ipaddress")
      { ip_address := some rPlain, changed := false } =
      { value := getByKey (some "ipaddress") (some rPlain),
        state := { ip_address := some rPlain, changed := false },
        calls := [] } :=
  C9_cached_lookup_idempotent envEmpty _ (some "ipaddress") _ rPlain rfl

/-- C10.  For every invocation with `state=present` in check mode the
reported `changed` flag is still true: `associate_ip_address` sets it
before the check-mode guard, so dry-run does not suppress the report. -/
theorem C10_present_check_mode_changed (env : Env) (p : Params)
    (hs : p.state = "present") (hc : p.check_mode = true) :
    (runModule env p).changed = true := by
  simp [runModule, validParams, hs, associate_ip_address, initState, hc]

/-- C10 witness at a concrete input. -/
theorem C10_present_check_mode_changed_witness :
    (runModule envEmpty
      { ip_address := none, state := "present",
        poll_async := true, check_mode := true }).changed = true :=
  C10_present_check_mode_changed envEmpty _ rfl rfl

end CsIpAddress
